import Mathlib

/-
Verification of the MySQL operator cluster-controller core
(`mysqloperator/controller/innodbcluster/cluster_controller.py` and
`mysqloperator/controller/group_monitor.py`) against its specification.

The embedding is shallow: each controller routine becomes a Lean function over
explicit state, and every call into an external collaborator (the admin client,
the diagnose module, the Kubernetes API, a `RetryLoop`-wrapped sub-operation)
is abstracted as an oracle parameter of type `Except PyErr _` describing that
call's outcome.  Raising a Python exception is modelled as returning
`Except.error`; `kopf.TemporaryError` / `kopf.PermanentError` are the retry
sentinels of the reconciliation framework.
-/

namespace MySQLOperator

/-- Cluster-level diagnostic statuses: the `DIAG_CLUSTER_*` constants of the
`diagnose` module, as referenced from `cluster_controller.py`.  The controller
only compares them for equality. -/
inductive ClusterDiagStatus where
  | INITIALIZING
  | ONLINE
  | ONLINE_PARTIAL
  | ONLINE_UNCERTAIN
  | OFFLINE
  | OFFLINE_UNCERTAIN
  | NO_QUORUM
  | NO_QUORUM_UNCERTAIN
  | SPLIT_BRAIN
  | SPLIT_BRAIN_UNCERTAIN
  | UNKNOWN
  | INVALID
  | FINALIZING
  deriving DecidableEq, Repr

/-- Printable name of a diagnostic status, used when statuses are interpolated
into sentinel messages. -/
def statusName : ClusterDiagStatus → String
  | .INITIALIZING => "INITIALIZING"
  | .ONLINE => "ONLINE"
  | .ONLINE_PARTIAL => "ONLINE_PARTIAL"
  | .ONLINE_UNCERTAIN => "ONLINE_UNCERTAIN"
  | .OFFLINE => "OFFLINE"
  | .OFFLINE_UNCERTAIN => "OFFLINE_UNCERTAIN"
  | .NO_QUORUM => "NO_QUORUM"
  | .NO_QUORUM_UNCERTAIN => "NO_QUORUM_UNCERTAIN"
  | .SPLIT_BRAIN => "SPLIT_BRAIN"
  | .SPLIT_BRAIN_UNCERTAIN => "SPLIT_BRAIN_UNCERTAIN"
  | .UNKNOWN => "UNKNOWN"
  | .INVALID => "INVALID"
  | .FINALIZING => "FINALIZING"

/-- Python exceptions visible to the controller.  `temporaryError` and
`permanentError` are the kopf sentinels (`delay` is the optional retry delay in
seconds); `shellError code` is a `mysqlsh.Error` carrying an error code;
`assertionError` and `indexError` are the corresponding Python built-ins. -/
inductive PyErr where
  | temporaryError (msg : String) (delay : Option Nat)
  | permanentError (msg : String)
  | shellError (code : Nat)
  | assertionError
  | indexError
  deriving DecidableEq, Repr

/-- Opaque error-code constants (`errors` module / `mysqlsh` error codes).
The controller only tests codes for equality, so only distinctness matters. -/
def ER_OPTION_PREVENTS_STATEMENT : Nat := 1290

def SHERR_DBA_BADARG_INSTANCE_NOT_ONLINE : Nat := 51314

def SHERR_DBA_BADARG_INSTANCE_ALREADY_IN_GR : Nat := 51301

def SHERR_DBA_MEMBER_METADATA_MISSING : Nat := 51104

/-- The fields of a `MySQLPod` that the modelled control flow inspects. -/
structure Pod where
  index : Nat
  name : String
  deleting : Bool
  deriving DecidableEq, Repr

/-- A cluster diagnostic as produced by `diagnose.diagnose_cluster`: the status
tag plus the quorum-candidate list used by the `NO_QUORUM` repair action. -/
structure ClusterDiagnostic where
  status : ClusterDiagStatus
  quorumCandidates : List Pod
  deriving DecidableEq, Repr

/-- Shallow embedding of `ClusterController.repair_cluster` (dispatch on the
diagnostic status).  The two administrative sub-operations it can launch,
`RetryLoop(...).call(self.reboot_cluster, ...)` and
`RetryLoop(...).call(self.force_quorum, ...)`, are oracles `rebootOutcome` and
`forceQuorumOutcome`.  A Python path that executes `return` (always a bare
`return`) yields `.ok none`; a raised exception yields `.error`.  The
`NO_QUORUM` arm indexes `diagnostic.quorum_candidates[0]`, which is an
`IndexError` on an empty list. -/
def repairCluster (pod : Pod) (diagnostic : ClusterDiagnostic)
    (rebootOutcome forceQuorumOutcome : Except PyErr Unit) :
    Except PyErr (Option Unit) :=
  match diagnostic.status with
  | .ONLINE => .ok none
  | .ONLINE_PARTIAL => .ok none
  | .ONLINE_UNCERTAIN => .ok none
  | .OFFLINE =>
    if pod.index = 0 then
      match rebootOutcome with
      | .ok _ => .ok none
      | .error e => .error e
    else .ok none
  | .OFFLINE_UNCERTAIN =>
    .error (.temporaryError
      ("Unreachable members found while in state " ++ statusName diagnostic.status ++ ", waiting...") none)
  | .NO_QUORUM =>
    match diagnostic.quorumCandidates with
    | [] => .error .indexError
    | _ :: _ =>
      match forceQuorumOutcome with
      | .ok _ => .ok none
      | .error e => .error e
  | .NO_QUORUM_UNCERTAIN =>
    .error (.temporaryError
      ("Unreachable members found while in state " ++ statusName diagnostic.status ++ ", waiting...") none)
  | .SPLIT_BRAIN =>
    .error (.permanentError
      ("Unable to recover from current cluster state. User action required. state=" ++ statusName diagnostic.status))
  | .SPLIT_BRAIN_UNCERTAIN =>
    .error (.permanentError
      ("Unable to recover from current cluster state. User action required. state=" ++ statusName diagnostic.status))
  | .UNKNOWN =>
    .error (.temporaryError
      ("No members of the cluster could be reached. state=" ++ statusName diagnostic.status) none)
  | .INVALID =>
    .error (.permanentError
      ("Unable to recover from current cluster state. User action required. state=" ++ statusName diagnostic.status))
  | .FINALIZING => .ok none
  | .INITIALIZING =>
    .error (.permanentError ("Invalid cluster state " ++ statusName diagnostic.status))

/-- Modelled from the spec: `utils.g_ephemeral_pod_state.testset` (the `utils`
module is not part of the sources at hand).  Per the spec, `acquire(cluster,
holder_token)` "atomically tests-and-sets the cluster's mutex slot"; so when
the slot already has an owner the call returns that owner and leaves the slot
unchanged, and when it is free it stores the token and reports no previous
owner.  The slot for one cluster is an `Option String` (the opaque owner
token, `None` when free). -/
def testset (slot : Option String) (token : String) : Option String × Option String :=
  match slot with
  | some owner => (some owner, some owner)
  | none => (none, some token)

/-- Shallow embedding of `ClusterMutex.__enter__`: run `testset` on the
cluster's slot; if an owner came back, raise
`kopf.TemporaryError(f"{cluster.name} busy.  lock_owner={owner}", delay=10)`.
Returns the outcome together with the slot after the call. -/
def mutexEnter (slot : Option String) (clusterName token : String) :
    Except PyErr Unit × Option String :=
  match testset slot token with
  | (some owner, slotAfter) =>
    (.error (.temporaryError (clusterName ++ " busy.  lock_owner=" ++ owner) (some 10)), slotAfter)
  | (none, slotAfter) => (.ok (), slotAfter)

/-- Shallow embedding of `ClusterMutex.__exit__`: store `None` in the slot. -/
def mutexExit (slot : Option String) : Option String :=
  match slot with
  | _ => none

/-- Python `with ClusterMutex(...)` semantics: `__enter__`; if it raised,
propagate with the slot as `testset` left it; otherwise run the guarded body
(an oracle `Except` value) and run `__exit__` on every exit path, normal or
exceptional. -/
def withClusterMutex (slot : Option String) (clusterName token : String)
    (body : Except PyErr Unit) : Except PyErr Unit × Option String :=
  match mutexEnter slot clusterName token with
  | (.ok _, slotHeld) => (body, mutexExit slotHeld)
  | (.error e, slotAfter) => (.error e, slotAfter)

deriving instance DecidableEq for Except

/-- Result of `ClusterController.on_pod_created`: the Python outcome plus a
trace of which administrative steps ran (`calledCreateCluster` — the
`RetryLoop` call of `create_cluster`; `setCreateTime` —
`cluster.set_create_time`; `calledReconcile` — the `RetryLoop` call of
`reconcile_pod`; `calledRepair` — the `repair_cluster` call). -/
structure PodCreatedResult where
  result : Except PyErr Unit
  calledCreateCluster : Bool
  setCreateTime : Bool
  calledReconcile : Bool
  calledRepair : Bool
  deriving DecidableEq, Repr

/-- Shallow embedding of `ClusterController.on_pod_created`.  Oracles:
`probeOutcome` is `self.probe_status(logger)` (the diagnostic, or an
exception); `createOutcome` and `reconcileOutcome` are the `RetryLoop` calls
of `create_cluster` and `reconcile_pod`; `rebootOutcome` / `forceQuorumOutcome`
feed the nested `repair_cluster`.  `createTimeSet` is the truthiness of
`self.cluster.get_create_time()`. -/
def onPodCreated (pod : Pod) (createTimeSet : Bool)
    (probeOutcome : Except PyErr ClusterDiagnostic)
    (createOutcome reconcileOutcome rebootOutcome forceQuorumOutcome : Except PyErr Unit) :
    PodCreatedResult :=
  match probeOutcome with
  | .error e => ⟨.error e, false, false, false, false⟩
  | .ok diag =>
    if diag.status = .INITIALIZING then
      if pod.index = 0 then
        if createTimeSet then
          ⟨.error (.permanentError
            "Internal inconsistency: cluster marked as initialized, but create requested again"),
            false, false, false, false⟩
        else
          match createOutcome with
          | .error e => ⟨.error e, true, false, false, false⟩
          | .ok _ => ⟨.ok (), true, true, false, false⟩
      else
        ⟨.error (.temporaryError "Cluster is not yet ready" (some 15)), false, false, false, false⟩
    else if diag.status = .ONLINE ∨ diag.status = .ONLINE_PARTIAL ∨
        diag.status = .ONLINE_UNCERTAIN then
      match reconcileOutcome with
      | .error e => ⟨.error e, false, false, true, false⟩
      | .ok _ => ⟨.ok (), false, false, true, false⟩
    else
      match repairCluster pod diag rebootOutcome forceQuorumOutcome with
      | .error e => ⟨.error e, false, false, false, true⟩
      | .ok _ =>
        ⟨.error (.temporaryError
          ("Cluster repair from state " ++ statusName diag.status ++ " attempted") (some 3)),
          false, false, false, true⟩

/-- Result of `ClusterController.on_pod_deleted`: the Python outcome plus a
flag recording whether the `raise kopf.TemporaryError("Cluster repair ...
attempted", delay=3)` statement guarded by the truthiness of
`repair_cluster`'s return value was executed. -/
structure PodDeletedResult where
  result : Except PyErr Unit
  repairAttemptRaised : Bool
  deriving DecidableEq, Repr

/-- Shallow embedding of `ClusterController.on_pod_deleted`.  Oracles:
`probeOutcome` — the initial `probe_status`; `destroyOutcome` —
`destroy_cluster` plus the subsequent finalizer removal; `removeOutcome` — the
`RetryLoop` call of `remove_instance`; `rebootOutcome` / `forceQuorumOutcome`
— the sub-operations of `repair_cluster`; `reprobeOutcome` — the final
`probe_status`. -/
def onPodDeleted (clusterDeleting : Bool) (pod : Pod)
    (probeOutcome : Except PyErr ClusterDiagnostic)
    (destroyOutcome removeOutcome rebootOutcome forceQuorumOutcome
      reprobeOutcome : Except PyErr Unit) :
    PodDeletedResult :=
  match probeOutcome with
  | .error e => ⟨.error e, false⟩
  | .ok diag =>
    if clusterDeleting ∧ pod.index = 0 then
      match destroyOutcome with
      | .error e => ⟨.error e, false⟩
      | .ok _ => ⟨.ok (), false⟩
    else if pod.deleting ∨ diag.status = .ONLINE ∨ diag.status = .ONLINE_PARTIAL ∨
        diag.status = .ONLINE_UNCERTAIN ∨ diag.status = .FINALIZING then
      match removeOutcome with
      | .error e => ⟨.error e, false⟩
      | .ok _ =>
        match reprobeOutcome with
        | .error e => ⟨.error e, false⟩
        | .ok _ => ⟨.ok (), false⟩
    else
      match repairCluster pod diag rebootOutcome forceQuorumOutcome with
      | .error e => ⟨.error e, false⟩
      | .ok v =>
        if v.isSome then
          ⟨.error (.temporaryError
            ("Cluster repair from state " ++ statusName diag.status ++ " attempted") (some 3)),
            true⟩
        else
          match reprobeOutcome with
          | .error e => ⟨.error e, false⟩
          | .ok _ => ⟨.ok (), false⟩

/-- Result of `ClusterController.remove_instance`: the Python outcome plus the
final state of the pod's member finalizer marker (`finalizerRemoved = true`
when `pod.remove_member_finalizer(pod_body)` at the end of the function was
reached). -/
structure RemoveInstanceResult where
  result : Except PyErr Unit
  finalizerRemoved : Bool
  deriving DecidableEq, Repr

/-- Shallow embedding of `ClusterController.remove_instance`.  `numPods` is
`len(self.cluster.get_pods())`; `peerName` the name of the peer pod
`connect_to_cluster` would return; `force` the keyword argument (default
`False` at every call site).  Oracles: `connectOutcome` —
`connect_to_cluster` (its `except` clause catches only `mysqlsh.Error`, i.e.
`shellError`); `gracefulOutcome` — `dba_cluster.remove_instance(pod, {})`;
`forceRemoveOutcome` — `dba_cluster.remove_instance(pod, {force: True})`.
Both remove calls likewise catch only `shellError`; any other exception
propagates before the finalizer removal is reached. -/
def removeInstance (numPods : Nat) (clusterDeleting force : Bool) (peerName : String)
    (connectOutcome gracefulOutcome forceRemoveOutcome : Except PyErr Unit) :
    RemoveInstanceResult :=
  if numPods > 1 then
    match connectOutcome with
    | .error (.shellError code) =>
      if clusterDeleting then
        -- peer_pod is None: clean removal skipped, fall through to the
        -- finalizer removal at the end of the function
        ⟨.ok (), true⟩
      else ⟨.error (.shellError code), false⟩
    | .error e => ⟨.error e, false⟩
    | .ok _ =>
      -- peer_pod is set: attempt graceful removal unless force was requested
      let step2 : Except PyErr Unit → RemoveInstanceResult := fun forcedOutcome =>
        match forcedOutcome with
        | .ok _ => ⟨.ok (), true⟩
        | .error (.shellError code) =>
          if code = SHERR_DBA_MEMBER_METADATA_MISSING then ⟨.ok (), true⟩
          else if clusterDeleting then ⟨.ok (), true⟩
          else ⟨.error (.shellError code), false⟩
        | .error e => ⟨.error e, false⟩
      if force then step2 forceRemoveOutcome
      else
        match gracefulOutcome with
        | .ok _ => ⟨.ok (), true⟩
        | .error (.shellError code) =>
          if code = ER_OPTION_PREVENTS_STATEMENT then
            ⟨.error (.temporaryError
              (peerName ++ " is a PRIMARY but super_read_only is ON") (some 5)), false⟩
          else if code = SHERR_DBA_MEMBER_METADATA_MISSING then ⟨.ok (), true⟩
          else step2 forceRemoveOutcome
        | .error e => ⟨.error e, false⟩
  else ⟨.ok (), true⟩

/-- The `initDB` block of a cluster spec: when present it must carry a clone
donor (`initDB.clone.uri`); `create_cluster` asserts otherwise. -/
structure InitDBSpec where
  cloneUri : Option String
  deriving DecidableEq, Repr

/-- The slice of the parsed cluster spec that `create_cluster` reads. -/
structure ClusterSpec where
  initDB : Option InitDBSpec
  deriving DecidableEq, Repr

/-- The option dictionary handed to the admin client's `create_cluster`
primitive: the literal `create_options` dict of the source updated with
`common_gr_options`. -/
structure CreateOptions where
  gtidSetIsComplete : Bool
  startOnBoot : Bool
  memberSslMode : String
  exitStateAction : String
  deriving DecidableEq, Repr

/-- Result of `ClusterController.create_cluster`: the Python outcome, the
final state of the seed pod's member finalizer marker, and the options that
were passed to `dba.create_cluster` (`none` when that primitive was never
invoked). -/
structure CreateClusterResult where
  result : Except PyErr Unit
  seedFinalizer : Bool
  createCallOptions : Option CreateOptions
  deriving DecidableEq, Repr

/-- Body of the `with connect_dba(...)` block of
`ClusterController.create_cluster`, entered with the already-computed
`gtidSetIsComplete` value.  `finalizer0` is the initial state of the seed
pod's member finalizer.  Oracles:
`connectOutcome` — `shellutils.connect_dba`; `clusterAlreadyExists` — whether
`dba.get_cluster()` succeeds (its `except` swallows everything);
`createOutcome` — `dba.create_cluster(name, options)` (only `shellError` is
caught); `stopGrOutcome` — the `STOP GROUP_REPLICATION` statement (only
`shellError` is caught); `probeOutcome` — `probe_member_status`;
`postOutcome` — `post_create_actions`. -/
def createClusterConnected (assumeGtidSetComplete : Bool) (finalizer0 : Bool)
    (connectOutcome : Except PyErr Unit) (clusterAlreadyExists : Bool)
    (createOutcome stopGrOutcome probeOutcome postOutcome : Except PyErr Unit) :
    CreateClusterResult :=
  let opts : CreateOptions := ⟨assumeGtidSetComplete, false, "REQUIRED", "ABORT_SERVER"⟩
  match connectOutcome with
  | .error e => ⟨.error e, finalizer0, none⟩
  | .ok _ =>
    -- seed_pod.add_member_finalizer() runs before the create call
    let tail : Option CreateOptions → CreateClusterResult := fun callOpts =>
      match probeOutcome with
      | .error e => ⟨.error e, true, callOpts⟩
      | .ok _ =>
        match postOutcome with
        | .error e => ⟨.error e, true, callOpts⟩
        | .ok _ => ⟨.ok (), true, callOpts⟩
    if clusterAlreadyExists then tail none
    else
      match createOutcome with
      | .ok _ => tail (some opts)
      | .error (.shellError code) =>
        -- creating the cluster failed: the membership finalizer is removed
        if code = SHERR_DBA_BADARG_INSTANCE_ALREADY_IN_GR then
          match stopGrOutcome with
          | .ok _ => ⟨.error (.shellError code), false, some opts⟩
          | .error (.shellError _) =>
            ⟨.error (.temporaryError
              "GR already running while creating cluster but could not stop it" (some 3)),
              false, some opts⟩
          | .error e => ⟨.error e, false, some opts⟩
        else ⟨.error (.shellError code), false, some opts⟩
      | .error e =>
        -- a non-mysqlsh exception is not caught; the finalizer stays
        ⟨.error e, true, some opts⟩

/-- Shallow embedding of `ClusterController.create_cluster` proper: decide
`gtidSetIsComplete` (asserting when `initDB` carries no clone source) and run
the `with connect_dba(...)` body. -/
def createCluster (spec : ClusterSpec) (finalizer0 : Bool)
    (connectOutcome : Except PyErr Unit) (clusterAlreadyExists : Bool)
    (createOutcome stopGrOutcome probeOutcome postOutcome : Except PyErr Unit) :
    CreateClusterResult :=
  match spec.initDB with
  | some idb =>
    match idb.cloneUri with
    | none => ⟨.error .assertionError, finalizer0, none⟩
    | some _ => createClusterConnected false finalizer0 connectOutcome
        clusterAlreadyExists createOutcome stopGrOutcome probeOutcome postOutcome
  | none => createClusterConnected true finalizer0 connectOutcome
      clusterAlreadyExists createOutcome stopGrOutcome probeOutcome postOutcome

/-- The `unreachable_states` tuple of `probe_status_if_needed`. -/
def unreachableStates : List ClusterDiagStatus :=
  [.UNKNOWN, .ONLINE_UNCERTAIN, .OFFLINE_UNCERTAIN, .NO_QUORUM_UNCERTAIN, .SPLIT_BRAIN_UNCERTAIN]

/-- Modelled from the spec (for the refinement comparison only): the
"UNCERTAIN family" of diagnoses, i.e. the statuses whose tag carries the
`_UNCERTAIN` suffix. -/
def uncertainFamily : List ClusterDiagStatus :=
  [.ONLINE_UNCERTAIN, .OFFLINE_UNCERTAIN, .NO_QUORUM_UNCERTAIN, .SPLIT_BRAIN_UNCERTAIN]

/-- Shallow embedding of `ClusterController.probe_status_if_needed`.
Timestamps (ISO strings in the source, ordered lexicographically which agrees
with time order) are modelled as `Option Nat`, `none` standing for a falsy
(absent) recorded value.  `lastStatus` is the recorded cluster status (absent
when never published); `probeOutcome` is what `probe_status` would yield if
invoked.  Returns the status the function reports together with a flag
telling whether the probe was re-run. -/
def probeStatusIfNeeded (clusterProbeTime memberTransitionTime : Option Nat)
    (lastStatus : Option ClusterDiagStatus)
    (probeOutcome : Except PyErr ClusterDiagStatus) :
    Except PyErr (Option ClusterDiagStatus) × Bool :=
  let timesCondition : Bool :=
    match clusterProbeTime, memberTransitionTime with
    | some pt, some tt => pt < tt
    | _, _ => false
  let statusCondition : Bool :=
    match lastStatus with
    | some s => unreachableStates.contains s
    | none => false
  if timesCondition || statusCondition then
    match probeOutcome with
    | .error e => (.error e, true)
    | .ok s => (.ok (some s), true)
  else (.ok lastStatus, false)

/-- A member tuple as returned by `shellutils.query_members`:
`(member_id, role, status, view_id, endpoint, version)`. -/
structure Member where
  memberId : String
  role : String
  status : String
  viewId : String
  endpoint : String
  version : String
  deriving DecidableEq, Repr

/-- The mutable fields of a `MonitoredCluster` record.  Sessions are opaque
handles (`Option Nat`); `lastConnectAttempt` is a timestamp in seconds with
`0` standing for "never attempted" (the Python initializer), matching the
falsiness test `not self.last_connect_attempt`. -/
structure MonitoredClusterState where
  session : Option Nat
  target : Option String
  targetNotPrimary : Option Bool
  lastConnectAttempt : Nat
  lastPrimaryId : Option String
  lastViewId : Option String
  deriving DecidableEq, Repr

/-- The `k_connect_retry_interval` constant of `group_monitor.py`. -/
def kConnectRetryInterval : Nat := 10

/-- The member-scanning loop of `MonitoredCluster.on_view_change`: walks the
member tuples accumulating the first PRIMARY seen, and breaks with
`force_reconnect = True` as soon as the previously recorded primary shows up
with a non-PRIMARY role.  Returns `(primary, force_reconnect)` as left by the
loop. -/
def scanMembers (lastPrimaryId : Option String) (primary : Option String) :
    List Member → Option String × Bool
  | [] => (primary, false)
  | m :: rest =>
    if lastPrimaryId = some m.memberId ∧ m.role ≠ "PRIMARY" then (primary, true)
    else if m.role = "PRIMARY" ∧ primary = none then
      scanMembers lastPrimaryId (some m.memberId) rest
    else scanMembers lastPrimaryId primary rest

/-- Shallow embedding of `MonitoredCluster.on_view_change`.  Oracles:
`queryOutcome` — `shellutils.query_members(self.session)`; `handlerOutcome` —
the registered handler invocation.  On success the record's `last_view_id`
and `last_primary_id` are updated, and the session is closed when it is known
not to be on the PRIMARY or the PRIMARY changed. -/
def onViewChange (st : MonitoredClusterState) (viewId : Option String)
    (queryOutcome : Except PyErr (List Member)) (handlerOutcome : Except PyErr Unit) :
    Except PyErr Unit × MonitoredClusterState :=
  match queryOutcome with
  | .error e => (.error e, st)
  | .ok members =>
    match handlerOutcome with
    | .error e => (.error e, st)
    | .ok _ =>
      let scanned := scanMembers st.lastPrimaryId none members
      let st1 := { st with lastViewId := viewId, lastPrimaryId := scanned.1 }
      if st1.targetNotPrimary.getD false || scanned.2 then
        (.ok (), { st1 with session := none })
      else (.ok (), st1)

/-- Shallow embedding of `MonitoredCluster.ensure_connected`.  `now` is
`time.time()`.  `connectOutcome` abstracts `connect_to_primary`: `.ok none`
when it returns with no session established, `.ok (some (s, target, tnp))`
when it establishes session `s` to `target` (with the `target_not_primary`
flag `tnp`), and `.error` when it surfaces an exception.  `queryOutcome` and
`handlerOutcome` feed the forced `on_view_change(None)` refresh after a
successful connect.  The returned `Bool` records whether a connection attempt
was started. -/
def ensureConnected (st : MonitoredClusterState) (now : Nat)
    (connectOutcome : Except PyErr (Option (Nat × String × Bool)))
    (queryOutcome : Except PyErr (List Member)) (handlerOutcome : Except PyErr Unit) :
    Except PyErr Unit × MonitoredClusterState × Bool :=
  if st.session = none ∧ (st.lastConnectAttempt = 0 ∨
      now - st.lastConnectAttempt > kConnectRetryInterval) then
    let st1 := { st with lastConnectAttempt := now, session := none }
    match connectOutcome with
    | .error e => (.error e, st1, true)
    | .ok none => (.ok (), st1, true)
    | .ok (some (s, target, tnp)) =>
      let st2 := { st1 with
        session := some s, target := some target, targetNotPrimary := some tnp }
      let refreshed := onViewChange st2 none queryOutcome handlerOutcome
      (refreshed.1, refreshed.2, true)
  else (.ok (), st, false)

/-- Identity of a registered `MonitoredCluster` record as compared by
`GroupMonitor.monitor_cluster` / `remove_cluster`: the cluster's namespace
and name. -/
structure MonitoredRef where
  nspace : String
  name : String
  deriving DecidableEq, Repr

/-- Shallow embedding of `GroupMonitor.monitor_cluster`: scan the registered
records and return unchanged on the first (namespace, name) match, otherwise
append one new `MonitoredCluster` record for the given cluster. -/
def monitorCluster (clusters : List MonitoredRef) (nspace name : String) :
    List MonitoredRef :=
  if clusters.any (fun c => c.name = name ∧ c.nspace = nspace) then clusters
  else clusters ++ [⟨nspace, name⟩]

/-- Helper: on every path on which `repair_cluster` executes a `return`, the
returned Python value is `None`. -/
theorem repairCluster_ok_eq_none (pod : Pod) (diagnostic : ClusterDiagnostic)
    (rebootOutcome forceQuorumOutcome : Except PyErr Unit) (v : Option Unit)
    (h : repairCluster pod diagnostic rebootOutcome forceQuorumOutcome = .ok v) :
    v = none := by
  unfold repairCluster at h
  rcases diagnostic with ⟨s, qc⟩
  cases s <;> dsimp only at h <;>
    (try split at h) <;> (try split at h) <;> simp_all

/-- C1 counterexample: at the concrete diagnostic `SPLIT_BRAIN_UNCERTAIN`
(with every sub-operation oracle benign), `repair_cluster` raises the
permanent-failure sentinel `kopf.PermanentError`, although the claim states
that an UNCERTAIN-tagged diagnosis never leads to a permanent failure. -/
theorem repairCluster_uncertain_cex :
    repairCluster ⟨0, "mycluster-0", false⟩ ⟨.SPLIT_BRAIN_UNCERTAIN, []⟩ (.ok ()) (.ok ()) =
      .error (.permanentError
        "Unable to recover from current cluster state. User action required. state=SPLIT_BRAIN_UNCERTAIN") := by
  rfl

/-- C1 (amended): for a diagnostic tagged `ONLINE_UNCERTAIN`,
`OFFLINE_UNCERTAIN` or `NO_QUORUM_UNCERTAIN`, `repair_cluster` either returns
normally or raises the retry-later sentinel `kopf.TemporaryError`; for
`SPLIT_BRAIN_UNCERTAIN` it raises the permanent-failure sentinel
`kopf.PermanentError`. -/
theorem repairCluster_uncertain_never_permanent_amended (pod : Pod)
    (diagnostic : ClusterDiagnostic)
    (rebootOutcome forceQuorumOutcome : Except PyErr Unit) :
    ((diagnostic.status = .ONLINE_UNCERTAIN ∨ diagnostic.status = .OFFLINE_UNCERTAIN ∨
        diagnostic.status = .NO_QUORUM_UNCERTAIN) →
      repairCluster pod diagnostic rebootOutcome forceQuorumOutcome = .ok none ∨
        ∃ msg delay, repairCluster pod diagnostic rebootOutcome forceQuorumOutcome =
          .error (.temporaryError msg delay)) ∧
    (diagnostic.status = .SPLIT_BRAIN_UNCERTAIN →
      ∃ msg, repairCluster pod diagnostic rebootOutcome forceQuorumOutcome =
        .error (.permanentError msg)) := by
  constructor
  · rintro (h | h | h) <;> simp [repairCluster, h]
  · intro h
    simp [repairCluster, h]

/-- C1 witness: the theorem applied at the concrete diagnostic
`OFFLINE_UNCERTAIN`. -/
theorem repairCluster_uncertain_never_permanent_amended_witness :
    repairCluster ⟨1, "mycluster-1", false⟩ ⟨.OFFLINE_UNCERTAIN, []⟩ (.ok ()) (.ok ()) = .ok none ∨
      ∃ msg delay,
        repairCluster ⟨1, "mycluster-1", false⟩ ⟨.OFFLINE_UNCERTAIN, []⟩ (.ok ()) (.ok ()) =
          .error (.temporaryError msg delay) :=
  (repairCluster_uncertain_never_permanent_amended ⟨1, "mycluster-1", false⟩
    ⟨.OFFLINE_UNCERTAIN, []⟩ (.ok ()) (.ok ())).1 (Or.inr (Or.inl rfl))

/-- C2: entering the `ClusterMutex` when the cluster's slot is already held
raises `kopf.TemporaryError` carrying the current holder with suggested delay
10 and leaves the slot's owner unchanged; when the slot is free the acquire
succeeds and stores the token, and leaving the `with` block — on a normal as
well as on an exceptional exit of the guarded body — clears the slot. -/
theorem clusterMutex_contract (owner clusterName token : String)
    (body : Except PyErr Unit) :
    mutexEnter (some owner) clusterName token =
      (.error (.temporaryError (clusterName ++ " busy.  lock_owner=" ++ owner) (some 10)),
        some owner) ∧
    mutexEnter none clusterName token = (.ok (), some token) ∧
    (withClusterMutex none clusterName token body).2 = none := by
  exact ⟨rfl, rfl, rfl⟩

/-- C3 counterexample: at a concrete state where the probe yields
`INITIALIZING`, the pod has index 0 but the cluster's create time is already
set, `on_pod_created` raises the permanent-failure sentinel and performs no
`create_cluster` call — refuting the claim that pod-0 under `INITIALIZING`
always gets `create_cluster` plus the create-time update. -/
theorem onPodCreated_initializing_cex :
    onPodCreated ⟨0, "mycluster-0", false⟩ true (.ok ⟨.INITIALIZING, []⟩)
        (.ok ()) (.ok ()) (.ok ()) (.ok ()) =
      ⟨.error (.permanentError
        "Internal inconsistency: cluster marked as initialized, but create requested again"),
        false, false, false, false⟩ := by
  rfl

/-- C3 (amended): when `on_pod_created` probes an `INITIALIZING` diagnostic:
for pod index 0 with the cluster create time not yet set, it calls
`create_cluster` and — when that call succeeds — sets the cluster create time
and returns; for pod index 0 with the create time already set it raises the
permanent-failure sentinel without any administrative call; for pod index
greater than 0 it raises the retry-later sentinel with delay 15 seconds and
performs no administrative call. -/
theorem onPodCreated_initializing_amended (pod : Pod) (createTimeSet : Bool)
    (diag : ClusterDiagnostic)
    (createOutcome reconcileOutcome rebootOutcome forceQuorumOutcome : Except PyErr Unit)
    (hInit : diag.status = .INITIALIZING) :
    ((pod.index = 0 ∧ createTimeSet = false) →
      (onPodCreated pod createTimeSet (.ok diag) createOutcome reconcileOutcome
          rebootOutcome forceQuorumOutcome).calledCreateCluster = true ∧
      (createOutcome = .ok () →
        onPodCreated pod createTimeSet (.ok diag) createOutcome reconcileOutcome
            rebootOutcome forceQuorumOutcome =
          ⟨.ok (), true, true, false, false⟩)) ∧
    ((pod.index = 0 ∧ createTimeSet = true) →
      onPodCreated pod createTimeSet (.ok diag) createOutcome reconcileOutcome
          rebootOutcome forceQuorumOutcome =
        ⟨.error (.permanentError
          "Internal inconsistency: cluster marked as initialized, but create requested again"),
          false, false, false, false⟩) ∧
    (0 < pod.index →
      onPodCreated pod createTimeSet (.ok diag) createOutcome reconcileOutcome
          rebootOutcome forceQuorumOutcome =
        ⟨.error (.temporaryError "Cluster is not yet ready" (some 15)),
          false, false, false, false⟩) := by
  refine ⟨?_, ?_, ?_⟩
  · rintro ⟨h0, hct⟩
    subst hct
    constructor
    · unfold onPodCreated
      simp only [hInit, h0]
      cases createOutcome <;> simp
    · intro hok
      subst hok
      unfold onPodCreated
      simp [hInit, h0]
  · rintro ⟨h0, hct⟩
    subst hct
    unfold onPodCreated
    simp [hInit, h0]
  · intro hpos
    unfold onPodCreated
    simp [hInit, Nat.pos_iff_ne_zero.mp hpos]

/-- C3 witness: the amended theorem applied at a concrete pod-0 creation with
an unset create time and a successful `create_cluster`. -/
theorem onPodCreated_initializing_amended_witness :
    onPodCreated ⟨0, "mycluster-0", false⟩ false (.ok ⟨.INITIALIZING, []⟩)
        (.ok ()) (.ok ()) (.ok ()) (.ok ()) =
      ⟨.ok (), true, true, false, false⟩ :=
  ((onPodCreated_initializing_amended ⟨0, "mycluster-0", false⟩ false ⟨.INITIALIZING, []⟩
    (.ok ()) (.ok ()) (.ok ()) (.ok ()) rfl).1 ⟨rfl, rfl⟩).2 rfl

/-- C7: `repair_cluster` evaluates to the falsy `None` on every path on which
it returns at all, for every diagnostic status; consequently the
`raise kopf.TemporaryError("Cluster repair ... attempted", delay=3)`
statement of `on_pod_deleted`, guarded by the truthiness of
`repair_cluster`'s return value, never executes. -/
theorem repairCluster_falsy_branch_unreachable :
    (∀ (pod : Pod) (diagnostic : ClusterDiagnostic)
      (rebootOutcome forceQuorumOutcome : Except PyErr Unit) (v : Option Unit),
      repairCluster pod diagnostic rebootOutcome forceQuorumOutcome = .ok v → v = none) ∧
    (∀ (clusterDeleting : Bool) (pod : Pod)
      (probeOutcome : Except PyErr ClusterDiagnostic)
      (destroyOutcome removeOutcome rebootOutcome forceQuorumOutcome
        reprobeOutcome : Except PyErr Unit),
      (onPodDeleted clusterDeleting pod probeOutcome destroyOutcome removeOutcome
        rebootOutcome forceQuorumOutcome reprobeOutcome).repairAttemptRaised = false) := by
  constructor
  · exact repairCluster_ok_eq_none
  · intro clusterDeleting pod probeOutcome destroyOutcome removeOutcome rebootOutcome
      forceQuorumOutcome reprobeOutcome
    unfold onPodDeleted
    cases probeOutcome with
    | error e => rfl
    | ok diag =>
      dsimp only
      split
      · cases destroyOutcome <;> rfl
      · split
        · cases removeOutcome with
          | error e => rfl
          | ok u => cases reprobeOutcome <;> rfl
        · rcases hrep : repairCluster pod diag rebootOutcome forceQuorumOutcome with e | v
          · rfl
          · have := repairCluster_ok_eq_none pod diag rebootOutcome forceQuorumOutcome _ hrep
            subst this
            cases reprobeOutcome <;> rfl

/-- C7 witness: the first conjunct applied at a concrete `ONLINE` diagnostic,
where `repair_cluster` returns `.ok none` by computation. -/
theorem repairCluster_falsy_branch_unreachable_witness :
    (none : Option Unit) = none :=
  repairCluster_falsy_branch_unreachable.1 ⟨0, "mycluster-0", false⟩ ⟨.ONLINE, []⟩
    (.ok ()) (.ok ()) none rfl

/-- Helper: `remove_instance` either returns normally having removed the
member finalizer, or propagates an exception with the finalizer still in
place. -/
theorem removeInstance_shape (numPods : Nat) (clusterDeleting force : Bool)
    (peerName : String)
    (connectOutcome gracefulOutcome forceRemoveOutcome : Except PyErr Unit) :
    removeInstance numPods clusterDeleting force peerName connectOutcome
        gracefulOutcome forceRemoveOutcome = ⟨.ok (), true⟩ ∨
      ∃ e, removeInstance numPods clusterDeleting force peerName connectOutcome
        gracefulOutcome forceRemoveOutcome = ⟨.error e, false⟩ := by
  unfold removeInstance
  dsimp only
  repeat' split <;> try (first | (left; rfl) | (right; exact ⟨_, rfl⟩))

/-- C4 counterexample: at a concrete invocation where the cluster is not
being deleted, a peer is reachable, and the graceful remove fails with
`ER_OPTION_PREVENTS_STATEMENT`, `remove_instance` raises the retry-later
sentinel (delay 5) and the pod's member finalizer is NOT removed — refuting
the claim that the finalizer is removed on every exit path, in particular
when the graceful remove fails. -/
theorem removeInstance_finalizer_cex :
    removeInstance 3 false false "mycluster-1"
        (.ok ()) (.error (.shellError ER_OPTION_PREVENTS_STATEMENT)) (.ok ()) =
      ⟨.error (.temporaryError "mycluster-1 is a PRIMARY but super_read_only is ON" (some 5)),
        false⟩ := by
  decide

/-- C4 (amended): on every path on which `remove_instance` returns normally —
including the best-effort paths where errors are swallowed because the
cluster is being deleted — the pod's member finalizer is removed at the end;
on paths that propagate an exception (graceful remove hitting the read-only
grace period, or connect/force-remove failures while the cluster is not being
deleted) the finalizer is left in place and its removal is deferred to the
retried invocation. -/
theorem removeInstance_finalizer_amended (numPods : Nat) (clusterDeleting force : Bool)
    (peerName : String)
    (connectOutcome gracefulOutcome forceRemoveOutcome : Except PyErr Unit)
    (h : (removeInstance numPods clusterDeleting force peerName connectOutcome
      gracefulOutcome forceRemoveOutcome).result = .ok ()) :
    (removeInstance numPods clusterDeleting force peerName connectOutcome
      gracefulOutcome forceRemoveOutcome).finalizerRemoved = true := by
  rcases removeInstance_shape numPods clusterDeleting force peerName connectOutcome
      gracefulOutcome forceRemoveOutcome with hs | ⟨e, hs⟩
  · rw [hs]
  · rw [hs] at h
    exact absurd h (by simp)

/-- C4 witness: the amended theorem applied at a concrete deleting-cluster
invocation whose graceful remove fails with an ordinary shell error and whose
force remove also fails; the errors are swallowed and the finalizer is
removed. -/
theorem removeInstance_finalizer_amended_witness :
    (removeInstance 3 true false "mycluster-1" (.ok ())
      (.error (.shellError 99)) (.error (.shellError 98))).finalizerRemoved = true :=
  removeInstance_finalizer_amended 3 true false "mycluster-1" (.ok ())
    (.error (.shellError 99)) (.error (.shellError 98)) (by decide)

/-- Helper: whatever options the connected body of `create_cluster` hands to
`dba.create_cluster`, they are the computed `gtidSetIsComplete` plus
`startOnBoot=False`, `memberSslMode="REQUIRED"`,
`exitStateAction="ABORT_SERVER"`. -/
theorem createClusterConnected_callOptions (a f0 : Bool)
    (connectOutcome : Except PyErr Unit) (clusterAlreadyExists : Bool)
    (createOutcome stopGrOutcome probeOutcome postOutcome : Except PyErr Unit)
    (opts : CreateOptions)
    (h : (createClusterConnected a f0 connectOutcome clusterAlreadyExists createOutcome
      stopGrOutcome probeOutcome postOutcome).createCallOptions = some opts) :
    opts = ⟨a, false, "REQUIRED", "ABORT_SERVER"⟩ := by
  unfold createClusterConnected at h
  dsimp only at h
  repeat' split at h
  all_goals try exact (Option.some.inj h).symm
  all_goals simp at h

/-- Helper: when the connected body reaches `dba.create_cluster` and that
call fails with a `mysqlsh.Error`, the body propagates some exception and the
seed finalizer ends up removed. -/
theorem createClusterConnected_shellError_shape (a f0 : Bool) (code : Nat)
    (stopGrOutcome probeOutcome postOutcome : Except PyErr Unit) :
    ∃ e, createClusterConnected a f0 (.ok ()) false (.error (.shellError code))
        stopGrOutcome probeOutcome postOutcome =
      ⟨.error e, false, some ⟨a, false, "REQUIRED", "ABORT_SERVER"⟩⟩ := by
  unfold createClusterConnected
  dsimp only
  repeat' split
  all_goals try exact ⟨_, rfl⟩
  all_goals simp_all

/-- C5: whenever `create_cluster` invokes the admin client's `create_cluster`
primitive, the options dictionary it passes has `gtidSetIsComplete` true
exactly when the cluster spec declares no `initDB` source, together with
`startOnBoot=False`, `memberSslMode="REQUIRED"` and
`exitStateAction="ABORT_SERVER"`. -/
theorem createCluster_gr_options (spec : ClusterSpec) (finalizer0 : Bool)
    (connectOutcome : Except PyErr Unit) (clusterAlreadyExists : Bool)
    (createOutcome stopGrOutcome probeOutcome postOutcome : Except PyErr Unit)
    (opts : CreateOptions)
    (h : (createCluster spec finalizer0 connectOutcome clusterAlreadyExists createOutcome
      stopGrOutcome probeOutcome postOutcome).createCallOptions = some opts) :
    opts.gtidSetIsComplete = spec.initDB.isNone ∧ opts.startOnBoot = false ∧
      opts.memberSslMode = "REQUIRED" ∧ opts.exitStateAction = "ABORT_SERVER" := by
  unfold createCluster at h
  rcases spec with ⟨initDB⟩
  rcases initDB with _ | ⟨idb⟩
  · have := createClusterConnected_callOptions true finalizer0 connectOutcome
      clusterAlreadyExists createOutcome stopGrOutcome probeOutcome postOutcome opts h
    subst this
    simp
  · rcases idb with _ | ⟨uri⟩
    · simp at h
    · have := createClusterConnected_callOptions false finalizer0 connectOutcome
        clusterAlreadyExists createOutcome stopGrOutcome probeOutcome postOutcome opts h
      subst this
      simp

/-- C5 witness: the theorem applied to a concrete from-scratch creation (no
`initDB`), whose create call receives
`{gtidSetIsComplete: True, startOnBoot: False, memberSslMode: "REQUIRED",
exitStateAction: "ABORT_SERVER"}`. -/
theorem createCluster_gr_options_witness :
    (⟨true, false, "REQUIRED", "ABORT_SERVER"⟩ : CreateOptions).gtidSetIsComplete =
        (ClusterSpec.mk none).initDB.isNone ∧
      (⟨true, false, "REQUIRED", "ABORT_SERVER"⟩ : CreateOptions).startOnBoot = false ∧
      (⟨true, false, "REQUIRED", "ABORT_SERVER"⟩ : CreateOptions).memberSslMode = "REQUIRED" ∧
      (⟨true, false, "REQUIRED", "ABORT_SERVER"⟩ : CreateOptions).exitStateAction =
        "ABORT_SERVER" :=
  createCluster_gr_options ⟨none⟩ false (.ok ()) false (.ok ()) (.ok ()) (.ok ()) (.ok ())
    ⟨true, false, "REQUIRED", "ABORT_SERVER"⟩ (by decide)

/-- C10: when the cluster does not already exist and `dba.create_cluster`
fails with an admin (`mysqlsh`) error after the seed pod's member finalizer
was added, `create_cluster` propagates an exception and the finalizer has
been removed again, so a failed creation leaves the seed pod without a member
finalizer. -/
theorem createCluster_failed_create_clears_finalizer (spec : ClusterSpec)
    (finalizer0 : Bool) (code : Nat)
    (stopGrOutcome probeOutcome postOutcome : Except PyErr Unit)
    (hspec : spec.initDB = none ∨ ∃ uri, spec.initDB = some ⟨some uri⟩) :
    (createCluster spec finalizer0 (.ok ()) false (.error (.shellError code))
      stopGrOutcome probeOutcome postOutcome).seedFinalizer = false ∧
    ∃ e, (createCluster spec finalizer0 (.ok ()) false (.error (.shellError code))
      stopGrOutcome probeOutcome postOutcome).result = .error e := by
  rcases spec with ⟨initDB⟩
  rcases hspec with hspec | ⟨uri, hspec⟩ <;> simp only at hspec <;> subst hspec <;>
    unfold createCluster <;> dsimp only
  · obtain ⟨e, he⟩ := createClusterConnected_shellError_shape true finalizer0 code
      stopGrOutcome probeOutcome postOutcome
    rw [he]
    exact ⟨rfl, e, rfl⟩
  · obtain ⟨e, he⟩ := createClusterConnected_shellError_shape false finalizer0 code
      stopGrOutcome probeOutcome postOutcome
    rw [he]
    exact ⟨rfl, e, rfl⟩

/-- C10 witness: the theorem applied to a concrete from-scratch creation
whose create call fails with an arbitrary shell error code. -/
theorem createCluster_failed_create_clears_finalizer_witness :
    (createCluster ⟨none⟩ false (.ok ()) false (.error (.shellError 4321))
      (.ok ()) (.ok ()) (.ok ())).seedFinalizer = false ∧
    ∃ e, (createCluster ⟨none⟩ false (.ok ()) false (.error (.shellError 4321))
      (.ok ()) (.ok ()) (.ok ())).result = .error e :=
  createCluster_failed_create_clears_finalizer ⟨none⟩ false 4321
    (.ok ()) (.ok ()) (.ok ()) (Or.inl rfl)

/-- Helper: membership in the code's `unreachable_states` tuple is membership
in the spec's UNCERTAIN family extended by `UNKNOWN`. -/
theorem unreachable_iff (s : ClusterDiagStatus) :
    unreachableStates.contains s = true ↔ (s ∈ uncertainFamily ∨ s = .UNKNOWN) := by
  cases s <;> decide

/-- C6 counterexample: with equal probe and transition timestamps and the
last recorded status `UNKNOWN` — which is not in the UNCERTAIN family —
`probe_status_if_needed` re-runs the probe, refuting the claim that it probes
exactly when the probe time is older or the last status is in the UNCERTAIN
family. -/
theorem probeStatusIfNeeded_refresh_cex :
    (probeStatusIfNeeded (some 5) (some 5) (some .UNKNOWN) (.ok .ONLINE)).2 = true ∧
      ¬ ((5 : Nat) < 5 ∨ ClusterDiagStatus.UNKNOWN ∈ uncertainFamily) := by
  decide

/-- C6 (amended): `probe_status_if_needed` re-runs the cluster probe exactly
when both the recorded probe time and the changed pod's transition time are
present with the probe time strictly older, or when the last recorded status
is in the UNCERTAIN family or is `UNKNOWN`; otherwise it returns the
previously recorded status unchanged without probing. -/
theorem probeStatusIfNeeded_refresh_amended (clusterProbeTime memberTransitionTime : Option Nat)
    (lastStatus : Option ClusterDiagStatus)
    (probeOutcome : Except PyErr ClusterDiagStatus) :
    ((probeStatusIfNeeded clusterProbeTime memberTransitionTime lastStatus probeOutcome).2 = true ↔
      (∃ p t, clusterProbeTime = some p ∧ memberTransitionTime = some t ∧ p < t) ∨
        ∃ s, lastStatus = some s ∧ (s ∈ uncertainFamily ∨ s = .UNKNOWN)) ∧
    ((probeStatusIfNeeded clusterProbeTime memberTransitionTime lastStatus probeOutcome).2 = false →
      (probeStatusIfNeeded clusterProbeTime memberTransitionTime lastStatus probeOutcome).1 =
        .ok lastStatus) := by
  constructor
  · unfold probeStatusIfNeeded
    dsimp only
    split
    · rename_i hcond
      rw [Bool.or_eq_true] at hcond
      constructor
      · intro _
        rcases hcond with hc | hc
        · left
          rcases clusterProbeTime with _ | p <;> rcases memberTransitionTime with _ | t <;>
            simp_all
        · right
          rcases lastStatus with _ | s
          · simp at hc
          · exact ⟨s, rfl, (unreachable_iff s).mp hc⟩
      · intro _
        cases probeOutcome <;> rfl
    · rename_i hcond
      constructor
      · intro hfl
        exact absurd hfl (by simp)
      · intro hdisj
        exfalso
        apply hcond
        rw [Bool.or_eq_true]
        rcases hdisj with ⟨p, t, hp, ht, hlt⟩ | ⟨s, hs, hmem⟩
        · subst hp; subst ht
          exact Or.inl (by simpa using hlt)
        · subst hs
          exact Or.inr ((unreachable_iff s).mpr hmem)
  · unfold probeStatusIfNeeded
    dsimp only
    split
    · intro hfl
      cases probeOutcome <;> simp_all
    · intro _
      rfl

/-- C6 witness: the second conjunct applied where neither condition holds —
the recorded status `ONLINE` is returned unchanged. -/
theorem probeStatusIfNeeded_refresh_amended_witness :
    (probeStatusIfNeeded (some 7) (some 7) (some .ONLINE) (.ok .OFFLINE)).1 =
      .ok (some .ONLINE) :=
  (probeStatusIfNeeded_refresh_amended (some 7) (some 7) (some .ONLINE) (.ok .OFFLINE)).2 rfl

/-- C8: a connection attempt is started only when there is no live session
and either no previous attempt was recorded (`last_connect_attempt` is 0) or
more than `k_connect_retry_interval` (10) seconds have elapsed since the last
recorded attempt; and after an attempt at time `t > 0` that failed to
establish a session, a further call at any time `now ≤ t + 10` performs no
connection attempt. -/
theorem ensureConnected_throttle (st : MonitoredClusterState) (t now : Nat)
    (co2 : Except PyErr (Option (Nat × String × Bool)))
    (qo qo2 : Except PyErr (List Member)) (ho ho2 : Except PyErr Unit) :
    ((ensureConnected st now co2 qo2 ho2).2.2 = true →
      st.session = none ∧
        (st.lastConnectAttempt = 0 ∨ st.lastConnectAttempt + kConnectRetryInterval < now)) ∧
    (st.session = none → 0 < t → now ≤ t + kConnectRetryInterval →
      (ensureConnected st t (.ok none) qo ho).2.2 = true →
      (ensureConnected (ensureConnected st t (.ok none) qo ho).2.1 now co2 qo2 ho2).2.2 =
        false) := by
  constructor
  · unfold ensureConnected
    split
    · rename_i hcond
      intro _
      refine ⟨hcond.1, ?_⟩
      rcases hcond.2 with h0 | hgt
      · exact Or.inl h0
      · right
        unfold kConnectRetryInterval at hgt ⊢
        omega
    · intro hfl
      exact absurd hfl (by simp)
  · intro hs ht hnow hflag
    have hst : (ensureConnected st t (.ok none) qo ho).2.1 =
        { st with lastConnectAttempt := t, session := none } := by
      unfold ensureConnected at hflag ⊢
      split at hflag
      · rename_i hcond
        rw [if_pos hcond]
      · exact absurd hflag (by simp)
    rw [hst]
    unfold ensureConnected
    split
    · rename_i hcond
      exfalso
      rcases hcond.2 with h0 | hgt
      · simp only at h0
        omega
      · simp only at hgt
        unfold kConnectRetryInterval at hgt hnow
        omega
    · rfl

/-- C8 witness: with no session and no recorded attempt, a call at time 100
attempts (it is applied to discharge the flag hypothesis) and the follow-up
call at time 105 after the failed attempt does not. -/
theorem ensureConnected_throttle_witness :
    (ensureConnected
      (ensureConnected ⟨none, none, none, 0, none, none⟩ 100 (.ok none) (.ok []) (.ok ())).2.1
      105 (.ok none) (.ok []) (.ok ())).2.2 = false :=
  (ensureConnected_throttle ⟨none, none, none, 0, none, none⟩ 100 105
    (.ok none) (.ok []) (.ok []) (.ok ()) (.ok ())).2 rfl (by decide) (by decide) (by decide)

/-- Helper: `monitor_cluster` returns without touching the list when a record
with the same (namespace, name) is registered. -/
theorem monitorCluster_mem (clusters : List MonitoredRef) (nspace name : String)
    (hex : ∃ c ∈ clusters, c.name = name ∧ c.nspace = nspace) :
    monitorCluster clusters nspace name = clusters := by
  unfold monitorCluster
  rw [if_pos]
  simpa [List.any_eq_true] using hex

/-- Helper: `monitor_cluster` appends exactly one record when no
(namespace, name) match is registered. -/
theorem monitorCluster_not_mem (clusters : List MonitoredRef) (nspace name : String)
    (hnex : ¬ ∃ c ∈ clusters, c.name = name ∧ c.nspace = nspace) :
    monitorCluster clusters nspace name = clusters ++ [⟨nspace, name⟩] := by
  unfold monitorCluster
  rw [if_neg]
  intro hc
  exact hnex (by simpa [List.any_eq_true] using hc)

/-- C9: `monitor_cluster` is idempotent on (namespace, name): with a matching
record already registered the list of monitored clusters is unchanged; with
no match exactly one record is appended; and a repeated registration is a
no-op. -/
theorem monitorCluster_idempotent (clusters : List MonitoredRef) (nspace name : String) :
    ((∃ c ∈ clusters, c.name = name ∧ c.nspace = nspace) →
      monitorCluster clusters nspace name = clusters) ∧
    ((¬ ∃ c ∈ clusters, c.name = name ∧ c.nspace = nspace) →
      monitorCluster clusters nspace name = clusters ++ [⟨nspace, name⟩]) ∧
    monitorCluster (monitorCluster clusters nspace name) nspace name =
      monitorCluster clusters nspace name := by
  refine ⟨monitorCluster_mem clusters nspace name,
    monitorCluster_not_mem clusters nspace name, ?_⟩
  by_cases hex : ∃ c ∈ clusters, c.name = name ∧ c.nspace = nspace
  · rw [monitorCluster_mem clusters nspace name hex,
      monitorCluster_mem clusters nspace name hex]
  · rw [monitorCluster_not_mem clusters nspace name hex]
    exact monitorCluster_mem _ nspace name ⟨⟨nspace, name⟩, by simp, rfl, rfl⟩

/-- C9 witness: the first conjunct applied to a concrete already-registered
cluster. -/
theorem monitorCluster_idempotent_witness :
    monitorCluster [⟨"testns", "mycluster"⟩] "testns" "mycluster" =
      [⟨"testns", "mycluster"⟩] :=
  (monitorCluster_idempotent [⟨"testns", "mycluster"⟩] "testns" "mycluster").1
    ⟨⟨"testns", "mycluster"⟩, by simp, rfl, rfl⟩

end MySQLOperator
